import Mathlib

/-!
Verification of the fcp-support daemon against its specification.

The definitions below are shallow embeddings of functions from the C
sources (src/server/mux.c, src/server/mix.c, src/server/device-ops.c,
src/server/fcp-socket.c, src/client/firmware.c).  Machine integers are
modelled as Nat (unsigned) or Int (C int); arrays as lists; device
transport calls are recorded in an explicit trace; fallible paths
return Except/Option.  Out-of-range array accesses in the C (undefined
behaviour) are modelled as a distinguished error value.
-/

namespace Fcp

/-- Trace entry for one device transport call issued by the embedded code. -/
inductive DevOp : Type
  | muxRead (rate : Nat)
  | muxWrite (rate : Nat) (size : Nat) (table : List Nat)
  | mixRead (output : Nat)
  | mixWrite (output : Nat) (values : List Int)
  deriving DecidableEq, Repr

/-- List lookup at a C int index: out of range (negative included) is `none`,
modelling that the C access would be out of bounds. -/
def listGetI (l : List Nat) (i : Int) : Option Nat :=
  if 0 ≤ i then l[i.toNat]? else none

/-- List update at a C int index: out of range (negative included) is `none`,
modelling that the C store would be out of bounds. -/
def listSetI (l : List Nat) (i : Int) (v : Nat) : Option (List Nat) :=
  if 0 ≤ i ∧ i.toNat < l.length then some (l.set i.toNat v) else none

/-- Embedding of `struct mux_cache` (src/server/mux.h): three per-rate router
tables of u32 slots, the flat input list (router pins), per-output slot
indices (3 per output, -1 meaning absent at that rate), per-output fixed
input (-1 meaning not fixed), and the single dirty flag. -/
structure MuxCache where
  mux_size : List Nat
  values : List (List Nat)
  input_router_pin : List Nat
  output_router_slots : List Int
  output_fixed_input : List Int
  dirty : Bool
  deriving DecidableEq, Repr

/-- Mux cache plus the device-side router tables that `fcp_mux_read` /
`fcp_mux_write` access. -/
structure MuxState where
  cache : MuxCache
  dev : List (List Nat)
  deriving DecidableEq, Repr

/-- Error outcomes of the embedded mux functions.  `oob` marks an
out-of-bounds table access, which in the C is undefined behaviour. -/
inductive MuxErr : Type
  | fixed_write
  | missing_slot
  | oob
  deriving DecidableEq, Repr

/-- Embedding of `get_cached_mux_values` (src/server/mux.c): if the cache is
dirty, all three rate tables are re-read from the device; the requested
table is returned.  Device reads are modelled as succeeding. -/
def get_cached_mux_values (st : MuxState) (mux_num : Nat) :
    MuxState × List DevOp × List Nat :=
  if st.cache.dirty then
    let st1 : MuxState :=
      { st with cache := { st.cache with values := st.dev, dirty := false } }
    (st1, [DevOp.muxRead 0, DevOp.muxRead 1, DevOp.muxRead 2], st.dev.getD mux_num [])
  else
    (st, [], st.cache.values.getD mux_num [])

/-- The search loop of `router_pin_to_input` (src/server/mux.c), `i` being
the index of the first remaining input. -/
def router_pin_to_input_go (router_pin : Nat) : Nat → List Nat → Nat
  | _, [] => 0
  | i, p :: ps => if p = router_pin then i else router_pin_to_input_go router_pin (i + 1) ps

/-- Embedding of `router_pin_to_input` (src/server/mux.c): index of the first
input whose router pin matches, 0 if none matches. -/
def router_pin_to_input (pins : List Nat) (router_pin : Nat) : Nat :=
  router_pin_to_input_go router_pin 0 pins

/-- Embedding of `read_mux_control` (src/server/mux.c): serve the fixed input
if set, otherwise look up the output's rate-0 slot and map the slot's high
12 bits (the source pin) back to an input index. -/
def read_mux_control (st : MuxState) (offset : Nat) :
    Except MuxErr (MuxState × List DevOp × Nat) :=
  let r := get_cached_mux_values st 0
  let st1 := r.1
  let tr := r.2.1
  let values := r.2.2
  let fixed := st1.cache.output_fixed_input.getD offset (-1)
  if 0 ≤ fixed then
    .ok (st1, tr, fixed.toNat)
  else
    match listGetI values (st1.cache.output_router_slots.getD (offset * 3) (-1)) with
    | none => .error .oob
    | some slotVal =>
      .ok (st1, tr, router_pin_to_input st1.cache.input_router_pin (slotVal >>> 12))

/-- One iteration of the rate loop in `write_mux_control` (src/server/mux.c):
fixed-input check, slot lookup (error only when the slot is missing at rate
0), slot update (out of range when the slot index is -1 at a higher rate),
and the `fcp_mux_write` flush of that rate's whole table. -/
def write_mux_rate (offset : Nat) (router_pin : Nat) (st : MuxState) (rate : Nat) :
    Except MuxErr (MuxState × List DevOp) :=
  if 0 ≤ st.cache.output_fixed_input.getD offset (-1) then
    .error .fixed_write
  else
    let slot_num := st.cache.output_router_slots.getD (offset * 3 + rate) (-1)
    if slot_num < 0 ∧ rate = 0 then
      .error .missing_slot
    else
      let values := st.cache.values.getD rate []
      match listGetI values slot_num with
      | none => .error .oob
      | some old =>
        match listSetI values slot_num ((old &&& 0xFFF) ||| (router_pin <<< 12)) with
        | none => .error .oob
        | some newTable =>
          .ok ({ cache := { st.cache with values := st.cache.values.set rate newTable },
                 dev := st.dev.set rate newTable },
               [DevOp.muxWrite rate (st.cache.mux_size.getD rate 0) newTable])

/-- Embedding of `write_mux_control` (src/server/mux.c): look up the selected
input's router pin and run the rate loop for rates 0, 1, 2. -/
def write_mux_control (st : MuxState) (offset : Nat) (value : Nat) :
    Except MuxErr (MuxState × List DevOp) :=
  let router_pin := st.cache.input_router_pin.getD value 0
  match write_mux_rate offset router_pin st 0 with
  | .error e => .error e
  | .ok r0 =>
    match write_mux_rate offset router_pin r0.1 1 with
    | .error e => .error e
    | .ok r1 =>
      match write_mux_rate offset router_pin r1.1 2 with
      | .error e => .error e
      | .ok r2 => .ok (r2.1, r0.2 ++ r1.2 ++ r2.2)

/-- Embedding of the per-daemon mixer cache (src/server/mix.c): cached rows,
per-row dirty flags, and the device-side coefficient rows. -/
structure MixState where
  input_count : Nat
  cache : List (List Int)
  dirty : List Bool
  dev : List (List Int)
  deriving DecidableEq, Repr

/-- Embedding of `get_cached_mix_values` (src/server/mix.c): row index
validation, lazy row fill from the device when dirty, then serve from
memory.  Device reads are modelled as succeeding. -/
def get_cached_mix_values (st : MixState) (mix_output : Nat) :
    Except Unit (MixState × List DevOp × List Int) :=
  if st.cache.length ≤ mix_output then
    .error ()
  else if st.dirty.getD mix_output true then
    let row := st.dev.getD mix_output []
    .ok ({ st with cache := st.cache.set mix_output row,
                   dirty := st.dirty.set mix_output false },
         [DevOp.mixRead mix_output], row)
  else
    .ok (st, [], st.cache.getD mix_output [])

/-- Embedding of `read_mix_control` (src/server/mix.c): split the control
offset into row and column, fetch the row through the cache, and return
the coefficient. -/
def read_mix_control (st : MixState) (offset : Nat) :
    Except Unit (MixState × List DevOp × Int) :=
  match get_cached_mix_values st (offset / st.input_count) with
  | .error e => .error e
  | .ok r => .ok (r.1, r.2.1, r.2.2.getD (offset % st.input_count) 0)

/-- Embedding of `write_mix_control` (src/server/mix.c): fetch the row
through the cache, mutate the coefficient in memory, and flush the whole
row back with one `fcp_mix_write`. -/
def write_mix_control (st : MixState) (offset : Nat) (value : Int) :
    Except Unit (MixState × List DevOp) :=
  match get_cached_mix_values st (offset / st.input_count) with
  | .error e => .error e
  | .ok r =>
    let values1 := r.2.2.set (offset % st.input_count) value
    .ok ({ r.1 with cache := r.1.cache.set (offset / st.input_count) values1,
                    dev := r.1.dev.set (offset / st.input_count) values1 },
         r.2.1 ++ [DevOp.mixWrite (offset / st.input_count) values1])

/-- The slice of `struct control_props` (src/server/device.h) that the
notification reconciler touches, with the control's device-side value (what
`read_func` would produce; `none` models a failing read) supplied as data. -/
structure NCtl where
  notify_client : Nat
  component_count : Nat
  read_result : Option (List Int)
  deriving DecidableEq, Repr

/-- Surface write recorded by the reconciler: control index, component
index, and the value stored with `snd_ctl_elem_value_set_integer`. -/
structure SurfaceWrite where
  ctl : Nat
  idx : Nat
  val : Int
  deriving DecidableEq, Repr

/-- Body of the per-control loop of `device_handle_notification`
(src/server/device-ops.c) for one control: skip unless the notification
intersects `notify_client`; invoke the read function; on success compare
each of the `count` components with the surface's current value and set
exactly the differing ones. -/
def notify_one_control (n : Nat) (i : Nat) (c : NCtl) (surfaceRow : List Int) :
    Bool × List SurfaceWrite × List Int :=
  if n &&& c.notify_client = 0 then
    (false, [], surfaceRow)
  else
    let count := if c.component_count = 0 then 1 else c.component_count
    match c.read_result with
    | none => (true, [], surfaceRow)
    | some vals =>
      let writes := (List.range count).filterMap (fun j =>
        if vals.getD j 0 ≠ surfaceRow.getD j 0 then
          some ⟨i, j, vals.getD j 0⟩
        else
          none)
      let row1 := (List.range count).foldl
        (fun row j =>
          if vals.getD j 0 ≠ surfaceRow.getD j 0 then row.set j (vals.getD j 0) else row)
        surfaceRow
      (true, writes, row1)

/-- The control loop of `device_handle_notification`
(src/server/device-ops.c), walking the control vector and the surface rows
in lockstep, `i` being the absolute index of the first remaining control.
Returns the indices whose read function was invoked, the surface writes
performed, and the updated surface rows. -/
def device_handle_notification_go (n : Nat) :
    Nat → List NCtl → List (List Int) → List Nat × List SurfaceWrite × List (List Int)
  | _, [], rows => ([], [], rows)
  | i, c :: cs, rows =>
    let r := notify_one_control n i c (rows.headD [])
    let rest := device_handle_notification_go n (i + 1) cs rows.tail
    ((if r.1 then [i] else []) ++ rest.1, r.2.1 ++ rest.2.1, r.2.2 :: rest.2.2)

/-- Embedding of `device_handle_notification` (src/server/device-ops.c):
iterate over all controls (the surface rows are parallel to the control
vector: row i holds the audio-control surface's current integer values
for control i). -/
def device_handle_notification (ctls : List NCtl) (surface : List (List Int)) (n : Nat) :
    List Nat × List SurfaceWrite × List (List Int) :=
  device_handle_notification_go n 0 ctls surface

/-- Specification-side set of controls the claim says must be re-read on
notification `n`: exactly those whose `notify_client` mask intersects
`n`. -/
def notified_controls (n : Nat) : Nat → List NCtl → List Nat
  | _, [] => []
  | i, c :: cs =>
    (if n &&& c.notify_client ≠ 0 then [i] else []) ++ notified_controls n (i + 1) cs

/-- The slice of `struct control_props` that `device_handle_control_change`
touches: the cached `value`, the read-only flag, whether a write function
is present, and the `notify_device` opcode. -/
structure CCtl where
  value : Int
  read_only : Bool
  has_write_func : Bool
  notify_device : Nat
  deriving DecidableEq, Repr

/-- Device calls issued by `device_handle_control_change`: the control's
write function and the `fcp_data_notify`. -/
inductive CtlDevOp : Type
  | write (v : Int)
  | notify (opcode : Nat)
  deriving DecidableEq, Repr

/-- Embedding of `device_handle_control_change` (src/server/device-ops.c).
`write_ret` and `notify_ret` are the return values the device produces for
the write function and `fcp_data_notify` (negative meaning failure).
Returns the updated control, the trace of device calls, and the function's
return value.  The cached `value` is assigned before the write function is
invoked and is not rolled back on failure. -/
def device_handle_control_change (c : CCtl) (new_val : Int)
    (write_ret : Int) (notify_ret : Int) : CCtl × List CtlDevOp × Int :=
  if new_val = c.value then
    (c, [], 0)
  else if c.read_only then
    (c, [], 0)
  else if ¬c.has_write_func then
    (c, [], 0)
  else
    let c1 := { c with value := new_val }
    if write_ret < 0 then
      (c1, [CtlDevOp.write new_val], write_ret)
    else if c.notify_device ≠ 0 then
      if notify_ret < 0 then
        (c1, [CtlDevOp.write new_val, CtlDevOp.notify c.notify_device], notify_ret)
      else
        (c1, [CtlDevOp.write new_val, CtlDevOp.notify c.notify_device], 0)
    else
      (c1, [CtlDevOp.write new_val], 0)

/-- Modelled from the spec: the socket error-code table of
shared/fcp-shared.h, which is not among the provided sources; §6 of the
spec lists the code names (invalid-magic, invalid-length, invalid-command,
invalid-hash, invalid-USB-id, invalid-state, not-leapfrog, read, write,
timeout, fcp, config). -/
inductive SockErr : Type
  | invalid_magic
  | invalid_length
  | invalid_command
  | invalid_hash
  | invalid_usb_id
  | invalid_state
  | not_leapfrog
  | read
  | write
  | timeout
  | fcp
  | config
  deriving DecidableEq, Repr

/-- Wire error payload: either a code from the shared table or a raw
negative errno (as `handle_client_command` sends when `fcp_reboot` fails). -/
inductive ErrCode : Type
  | table (e : SockErr)
  | errno (n : Int)
  deriving DecidableEq, Repr

/-- Response frame as seen by the client: PROGRESS, ERROR or SUCCESS
(src/server/fcp-socket.c `send_progress`, `send_error`, `send_response`). -/
inductive Frame : Type
  | progress (percent : Nat)
  | error (code : ErrCode)
  | success
  deriving DecidableEq, Repr

/-- Embedding of the static flash-segment variables of
src/server/fcp-socket.c (`have_flash_info`, `*_segment_num`,
`*_segment_size`), all initialised to false / -1. -/
structure SegState where
  have_flash_info : Bool
  upgrade_segment_num : Int
  upgrade_segment_size : Int
  settings_segment_num : Int
  settings_segment_size : Int
  disk_segment_num : Int
  disk_segment_size : Int
  env_segment_num : Int
  env_segment_size : Int
  deriving DecidableEq, Repr

/-- The initial values of the static segment variables. -/
def SegState.initial : SegState :=
  ⟨false, -1, -1, -1, -1, -1, -1, -1, -1⟩

/-- One iteration of the segment scan in `get_segment_nums`
(src/server/fcp-socket.c): record index and size under the matching name. -/
def scan_segment (st : SegState) (i : Nat) (name : String) (size : Int) : SegState :=
  if name = "App_Upgrade" then
    { st with upgrade_segment_num := i, upgrade_segment_size := size }
  else if name = "App_Settings" then
    { st with settings_segment_num := i, settings_segment_size := size }
  else if name = "App_Disk" then
    { st with disk_segment_num := i, disk_segment_size := size }
  else if name = "App_Env" then
    { st with env_segment_num := i, env_segment_size := size }
  else st

/-- Embedding of `get_segment_nums` (src/server/fcp-socket.c): cached after
the first success; validates the segment count, scans every reported
segment by name, then errors only when one of the four recorded indices
equals zero.  `segments` is the device's segment list (name and size per
index). -/
def get_segment_nums (st : SegState) (segments : List (String × Int)) :
    Except Unit SegState :=
  if st.have_flash_info then .ok st
  else if segments.length < 1 ∨ 15 < segments.length then .error ()
  else
    let st1 := segments.enum.foldl (fun s p => scan_segment s p.1 p.2.1 p.2.2) st
    if st1.upgrade_segment_num = 0 then .error ()
    else if st1.settings_segment_num = 0 then .error ()
    else if st1.disk_segment_num = 0 then .error ()
    else if st1.env_segment_num = 0 then .error ()
    else .ok { st1 with have_flash_info := true }

/-- Result of `erase_flash_segment`: `hang` marks the C's unbounded polling
loop running out of supplied poll results (the C would keep polling). -/
inductive EraseResult : Type
  | hang
  | err (code : SockErr) (frames : List Frame) (last : Int)
  | done (frames : List Frame) (last : Int)
  deriving DecidableEq, Repr

/-- The polling loop of `erase_flash_segment` (src/server/fcp-socket.c):
each poll result is the device's block count (negative = read failure,
255 = completion sentinel); the percent is emitted only when it differs
from `last` (the function's static `last_progress`), which is then
updated.  The u8 truncation of `send_progress`'s argument is modelled
with `% 256`. -/
def erase_poll_loop (num_blocks : Int) (last : Int) : List Int → EraseResult
  | [] => .hang
  | ret :: rest =>
    if ret < 0 then .err .read [] last
    else if ret = 255 then .done [] last
    else
      let progress := Int.tdiv (ret * 100) num_blocks
      if progress ≠ last then
        match erase_poll_loop num_blocks progress rest with
        | .hang => .hang
        | .err c fs l => .err c (Frame.progress (progress.toNat % 256) :: fs) l
        | .done fs l => .done (Frame.progress (progress.toNat % 256) :: fs) l
      else
        erase_poll_loop num_blocks last rest

/-- Embedding of `erase_flash_segment` (src/server/fcp-socket.c).
`last_progress` is the value of the function's `static int last_progress`
on entry; the returned `last` is its value on exit (the static persists
across requests).  After the sentinel, a final 100 frame is sent only if
`last_progress` is not already 100, and `last_progress` is not updated by
that final send. -/
def erase_flash_segment (last_progress : Int) (segment_num : Int)
    (num_blocks : Int) (erase_ok : Bool) (polls : List Int) : EraseResult :=
  if segment_num < 1 ∨ 15 < segment_num then .err .read [] last_progress
  else if num_blocks < 1 ∨ 255 < num_blocks then .err .read [] last_progress
  else if erase_ok = false then .err .write [] last_progress
  else
    match erase_poll_loop num_blocks last_progress polls with
    | .hang => .hang
    | .err c fs l => .err c fs l
    | .done fs l => if l ≠ 100 then .done (fs ++ [Frame.progress 100]) l else .done fs l

/-- Embedding of `struct firmware_payload` (shared/fcp-shared.h is not among
the sources; the layout is given in §4.7 of the spec: u32 size, u16 vid,
u16 pid, u8[32] sha256, u8[16] md5, then `size` data bytes). -/
structure FirmwarePayload where
  size : Nat
  usb_vid : Nat
  usb_pid : Nat
  sha256 : List Nat
  md5 : List Nat
  data : List Nat
  deriving DecidableEq, Repr

/-- FCP_FLASH_WRITE_MAX (src/server/fcp.h): 1024 - 3 * 4. -/
def FCP_FLASH_WRITE_MAX : Nat := 1024 - 3 * 4

/-- Chunk start offsets of the flash write loop in
`handle_app_firmware_update`: i = 0, MAX, 2*MAX, ... while i < size. -/
def chunk_starts (size : Nat) : List Nat :=
  (List.range ((size + FCP_FLASH_WRITE_MAX - 1) / FCP_FLASH_WRITE_MAX)).map
    (· * FCP_FLASH_WRITE_MAX)

/-- The flash write loop of `handle_app_firmware_update`
(src/server/fcp-socket.c): write each chunk (`flash_ok i` gives the
device's verdict for the chunk at offset i), then emit `i*100/size` when
it differs from the local `last_progress`.  A failed write aborts with
the frames sent so far (`Except.error`). -/
def app_write_loop (flash_ok : Nat → Bool) (size : Nat) :
    List Nat → Int → Except (List Frame) (List Frame × Int)
  | [], last => .ok ([], last)
  | i :: rest, last =>
    if flash_ok i = false then .error []
    else
      let progress := Int.tdiv ((i : Int) * 100) (size : Int)
      if progress ≠ last then
        match app_write_loop flash_ok size rest progress with
        | .error fs => .error (Frame.progress (progress.toNat % 256) :: fs)
        | .ok (fs, l) => .ok (Frame.progress (progress.toNat % 256) :: fs, l)
      else
        app_write_loop flash_ok size rest last

/-- Embedding of `handle_app_firmware_update` (src/server/fcp-socket.c).
`sha` abstracts the SHA-256 primitive (out of scope per the spec); the
size upper bound reproduces the C comparison of the u32 payload size with
the int segment size (the int is converted to u32, i.e. taken mod 2^32).
Returns the frames this handler itself sends plus its return code
(`none` = 0).  Note the validation failures both send an ERROR frame and
return the same nonzero code to the caller. -/
def handle_app_firmware_update (sha : List Nat → List Nat)
    (dev_vid dev_pid : Nat) (st : SegState) (segments : List (String × Int))
    (flash_ok : Nat → Bool) (p : FirmwarePayload) :
    List Frame × Option SockErr :=
  match get_segment_nums st segments with
  | .error _ => ([], some .read)
  | .ok st1 =>
    if p.size < 65536 then
      ([Frame.error (.table .invalid_length)], some .invalid_length)
    else if (p.size : Int) > Int.emod st1.upgrade_segment_size (2 ^ 32) then
      ([Frame.error (.table .invalid_length)], some .invalid_length)
    else if ¬(sha (p.data.take p.size) = p.sha256) then
      ([Frame.error (.table .invalid_hash)], some .invalid_hash)
    else if p.usb_vid ≠ dev_vid ∨ p.usb_pid ≠ dev_pid then
      ([Frame.error (.table .invalid_usb_id)], some .invalid_usb_id)
    else
      match app_write_loop flash_ok p.size (chunk_starts p.size) (-1) with
      | .error fs => (fs, some .write)
      | .ok (fs, last) =>
        if last ≠ 100 then (fs ++ [Frame.progress 100], none) else (fs, none)

/-- A client request together with the environment its handler needs.  The
ESP branch carries its handler's observable outcome as data: the
auxiliary-MCU DFU engine is outside the claims under verification, and
`handle_esp_firmware_update` (src/server/esp-dfu.c) sends only PROGRESS
frames itself, returning its error code to the dispatcher. -/
inductive Request : Type
  | reboot (ret : Int)
  | config_erase (erase_ok : Bool) (polls : List Int)
  | app_firmware_erase (erase_ok : Bool) (polls : List Int)
  | app_firmware_update (flash_ok : Nat → Bool) (p : FirmwarePayload)
  | esp_firmware_update (frames : List Frame) (ret : Option SockErr)
  | unknown

/-- The daemon-side state the socket handlers share: device USB ids, the
device's flash segment list, the cached segment numbers, and the static
`last_progress` of `erase_flash_segment`. -/
structure Daemon where
  dev_vid : Nat
  dev_pid : Nat
  seg : SegState
  segments : List (String × Int)
  erase_last_progress : Int

/-- Embedding of `erase_config` / `erase_app_firmware`
(src/server/fcp-socket.c): resolve segments, then erase the selected
segment with block count = segment size / 4096. -/
def erase_segment_cmd (d : Daemon) (upgrade : Bool) (erase_ok : Bool)
    (polls : List Int) : Option (List Frame × Option SockErr × Daemon) :=
  match get_segment_nums d.seg d.segments with
  | .error _ => some ([], some .read, d)
  | .ok st1 =>
    let num := if upgrade then st1.upgrade_segment_num else st1.settings_segment_num
    let size := if upgrade then st1.upgrade_segment_size else st1.settings_segment_size
    match erase_flash_segment d.erase_last_progress num (Int.tdiv size 4096)
        erase_ok polls with
    | .hang => none
    | .err c fs l => some (fs, some c, { d with seg := st1, erase_last_progress := l })
    | .done fs l => some (fs, none, { d with seg := st1, erase_last_progress := l })

/-- Embedding of `handle_client_command` (src/server/fcp-socket.c): dispatch
on the request type, then terminate with one ERROR frame (the handler's
nonzero return) or one SUCCESS frame; an unknown type gets only an ERROR
frame.  `none` models the erase polling loop never seeing the sentinel. -/
def handle_client_command (sha : List Nat → List Nat) (d : Daemon) (req : Request) :
    Option (List Frame × Daemon) :=
  match req with
  | .reboot ret =>
    if ret ≠ 0 then some ([Frame.error (.errno ret)], d)
    else some ([Frame.success], d)
  | .config_erase erase_ok polls =>
    match erase_segment_cmd d false erase_ok polls with
    | none => none
    | some (fs, some c, d1) => some (fs ++ [Frame.error (.table c)], d1)
    | some (fs, none, d1) => some (fs ++ [Frame.success], d1)
  | .app_firmware_erase erase_ok polls =>
    match erase_segment_cmd d true erase_ok polls with
    | none => none
    | some (fs, some c, d1) => some (fs ++ [Frame.error (.table c)], d1)
    | some (fs, none, d1) => some (fs ++ [Frame.success], d1)
  | .app_firmware_update flash_ok p =>
    let r := handle_app_firmware_update sha d.dev_vid d.dev_pid d.seg d.segments
      flash_ok p
    let d1 := { d with seg := (get_segment_nums d.seg d.segments).toOption.getD d.seg }
    match r.2 with
    | some c => some (r.1 ++ [Frame.error (.table c)], d1)
    | none => some (r.1 ++ [Frame.success], d1)
  | .esp_firmware_update frames ret =>
    match ret with
    | some c => some (frames ++ [Frame.error (.table c)], d)
    | none => some (frames ++ [Frame.success], d)
  | .unknown => some ([Frame.error (.table .invalid_command)], d)

/-- Embedding of `enum firmware_type` (src/client/firmware.h). -/
inductive FirmwareType : Type
  | container
  | app
  | esp
  | leapfrog
  deriving DecidableEq, Repr

/-- ASCII bytes of the magic string SCARLBOX. -/
def magicSCARLBOX : List Nat := [83, 67, 65, 82, 76, 66, 79, 88]

/-- ASCII bytes of the magic string SCARLET4. -/
def magicSCARLET4 : List Nat := [83, 67, 65, 82, 76, 69, 84, 52]

/-- ASCII bytes of the magic string SCARLESP. -/
def magicSCARLESP : List Nat := [83, 67, 65, 82, 76, 69, 83, 80]

/-- ASCII bytes of the magic string SCARLEAP. -/
def magicSCARLEAP : List Nat := [83, 67, 65, 82, 76, 69, 65, 80]

/-- Embedding of `firmware_type_from_magic` (src/client/firmware.c): compare
the 8 magic bytes against the table in enum order; no match is -1 in the C,
`none` here. -/
def firmware_type_from_magic (m : List Nat) : Option FirmwareType :=
  if m = magicSCARLBOX then some .container
  else if m = magicSCARLET4 then some .app
  else if m = magicSCARLESP then some .esp
  else if m = magicSCARLEAP then some .leapfrog
  else none

/-- Embedding of `read_magic` (src/client/firmware.c): read 8 bytes and map
them through the magic table; a short read and an unknown magic both
surface as a negative type in the C, `none` here. -/
def read_magic (s : List Nat) : Option FirmwareType × List Nat :=
  if s.length < 8 then (none, s.drop 8)
  else (firmware_type_from_magic (s.take 8), s.drop 8)

/-- Big-endian u16 from the first two bytes (ntohs of the packed field). -/
def beU16 (s : List Nat) : Nat := s.getD 0 0 * 256 + s.getD 1 0

/-- Big-endian u32 from the first four bytes (ntohl of the packed field). -/
def beU32 (s : List Nat) : Nat :=
  ((s.getD 0 0 * 256 + s.getD 1 0) * 256 + s.getD 2 0) * 256 + s.getD 3 0

/-- Embedding of `struct firmware` (src/client/firmware.h).  The md5 field
is zeroed by calloc and assigned only for the ESP section; it is modelled
as an Option (`none` = never computed). -/
structure Firmware where
  type : FirmwareType
  usb_vid : Nat
  usb_pid : Nat
  firmware_version : List Nat
  firmware_length : Nat
  sha256 : List Nat
  md5 : Option (List Nat)
  firmware_data : List Nat
  deriving DecidableEq, Repr

/-- Embedding of `struct firmware_container` (src/client/firmware.h). -/
structure FirmwareContainer where
  usb_vid : Nat
  usb_pid : Nat
  firmware_version : List Nat
  num_sections : Nat
  sections : List Firmware
  deriving DecidableEq, Repr

/-- Result of a reader function returning a pointer in the C: `ok` is a
non-NULL result, `fail` is a NULL return reached through a well-defined
error path, and `ub` marks an error path whose own code is undefined
behaviour (freeing an unallocated pointer / dereferencing NULL). -/
inductive RRes (α : Type) : Type
  | ok (a : α)
  | fail
  | ub
  deriving DecidableEq, Repr

/-- Embedding of `firmware_header_disk_to_mem` (src/client/firmware.c) on
the 56 header bytes (u16 vid, u16 pid, u32[4] version, u32 length,
u8[32] sha256, all big-endian), with allocation assumed to succeed. -/
def firmware_header_disk_to_mem (type : FirmwareType) (h : List Nat) : Firmware :=
  { type := type
    usb_vid := beU16 h
    usb_pid := beU16 (h.drop 2)
    firmware_version :=
      [beU32 (h.drop 4), beU32 (h.drop 8), beU32 (h.drop 12), beU32 (h.drop 16)]
    firmware_length := beU32 (h.drop 20)
    sha256 := (h.drop 24).take 32
    md5 := none
    firmware_data := [] }

/-- Embedding of `read_header` (src/client/firmware.c).  On a short read the
C jumps to an error label that frees the still-uninitialised `firmware`
pointer (itself undefined behaviour); the model charitably treats that
path as a clean NULL return, so that the undefined behaviour established
below is only the unambiguous one in `read_header_and_data`. -/
def read_header (type : FirmwareType) (s : List Nat) : RRes (Firmware × List Nat) :=
  if s.length < 56 then .fail
  else .ok (firmware_header_disk_to_mem type (s.take 56), s.drop 56)

/-- Embedding of `read_header_and_data` (src/client/firmware.c).  When
`read_header` returns NULL, the error label executes
`free(firmware->firmware_data)` with `firmware == NULL`: a null
dereference, modelled as `ub`.  On the short-payload and digest-mismatch
paths the frees are well-defined, so they are clean failures.  `sha` and
`md5f` abstract the digest primitives (out of scope per the spec). -/
def read_header_and_data (sha md5f : List Nat → List Nat) (type : FirmwareType)
    (s : List Nat) : RRes (Firmware × List Nat) :=
  match read_header type s with
  | .ub => .ub
  | .fail => .ub
  | .ok pr =>
    if pr.2.length < pr.1.firmware_length then .fail
    else
      let data := pr.2.take pr.1.firmware_length
      if ¬(sha data = pr.1.sha256) then .fail
      else if type = FirmwareType.esp then
        .ok ({ pr.1 with firmware_data := data, md5 := some (md5f data) },
             pr.2.drop pr.1.firmware_length)
      else
        .ok ({ pr.1 with firmware_data := data, md5 := none },
             pr.2.drop pr.1.firmware_length)

/-- Embedding of `read_magic_and_header_and_data` (src/client/firmware.c):
a section must start with a non-container magic. -/
def read_magic_and_header_and_data (sha md5f : List Nat → List Nat) (s : List Nat) :
    RRes (Firmware × List Nat) :=
  let r := read_magic s
  match r.1 with
  | none => .fail
  | some FirmwareType.container => .fail
  | some ty => read_header_and_data sha md5f ty r.2

/-- Embedding of `read_firmware_container_header` (src/client/firmware.c)
on the 24 container-header bytes. -/
def read_firmware_container_header (s : List Nat) : RRes (FirmwareContainer × List Nat) :=
  if s.length < 24 then .fail
  else
    .ok ({ usb_vid := beU16 s
           usb_pid := beU16 (s.drop 2)
           firmware_version :=
             [beU32 (s.drop 4), beU32 (s.drop 8), beU32 (s.drop 12), beU32 (s.drop 16)]
           num_sections := beU32 (s.drop 20)
           sections := [] }, s.drop 24)

/-- The section loop of `read_firmware_container` (src/client/firmware.c). -/
def read_sections (sha md5f : List Nat → List Nat) :
    Nat → List Nat → RRes (List Firmware × List Nat)
  | 0, s => .ok ([], s)
  | n + 1, s =>
    match read_magic_and_header_and_data sha md5f s with
    | .ub => .ub
    | .fail => .fail
    | .ok pr =>
      match read_sections sha md5f n pr.2 with
      | .ub => .ub
      | .fail => .fail
      | .ok qr => .ok (pr.1 :: qr.1, qr.2)

/-- Embedding of `read_firmware_container` (src/client/firmware.c): read the
container header, require 1..3 sections, then read each section. -/
def read_firmware_container (sha md5f : List Nat → List Nat) (s : List Nat) :
    RRes FirmwareContainer :=
  match read_firmware_container_header s with
  | .ub => .ub
  | .fail => .fail
  | .ok pr =>
    if pr.1.num_sections < 1 ∨ 3 < pr.1.num_sections then .fail
    else
      match read_sections sha md5f pr.1.num_sections pr.2 with
      | .ub => .ub
      | .fail => .fail
      | .ok qr => .ok { pr.1 with sections := qr.1 }

/-- Embedding of `read_firmware_file` (src/client/firmware.c): dispatch on
the top-level magic; a legacy non-container file becomes a single-section
container whose calloc-zeroed header fields stay zero. -/
def read_firmware_file (sha md5f : List Nat → List Nat) (s : List Nat) :
    RRes FirmwareContainer :=
  let r := read_magic s
  match r.1 with
  | none => .fail
  | some FirmwareType.container => read_firmware_container sha md5f r.2
  | some ty =>
    match read_header_and_data sha md5f ty r.2 with
    | .ub => .ub
    | .fail => .fail
    | .ok pr =>
      .ok { usb_vid := 0, usb_pid := 0, firmware_version := [0, 0, 0, 0],
            num_sections := 1, sections := [pr.1] }

/-- The per-section digest property claimed of every accepted firmware
file: the payload's SHA-256 equals the header digest, and the MD5 digest
is computed and stored exactly for the auxiliary-MCU (ESP) section. -/
def section_digest_ok (sha md5f : List Nat → List Nat) (fw : Firmware) : Prop :=
  sha fw.firmware_data = fw.sha256 ∧
  fw.md5 = if fw.type = FirmwareType.esp then some (md5f fw.firmware_data) else none

/-! Helper lemmas about list access. -/

theorem getD_set_self {α : Type} (l : List α) (i : Nat) (v d : α) (h : i < l.length) :
    (l.set i v).getD i d = v := by
  induction l generalizing i with
  | nil => simp at h
  | cons a as ih =>
    cases i with
    | zero => rfl
    | succ j => simpa using ih j (by simpa using h)

theorem getD_set_of_ne {α : Type} (l : List α) (i j : Nat) (h : i ≠ j) (v d : α) :
    (l.set i v).getD j d = l.getD j d := by
  induction l generalizing i j with
  | nil => rfl
  | cons a as ih =>
    cases i with
    | zero =>
      cases j with
      | zero => exact absurd rfl h
      | succ k => rfl
    | succ i1 =>
      cases j with
      | zero => rfl
      | succ k =>
        have h2 : i1 ≠ k := by omega
        simpa using ih i1 k h2

theorem getD_tail {α : Type} (l : List α) (k : Nat) (d : α) :
    l.tail.getD k d = l.getD (k + 1) d := by
  cases l <;> rfl

/-! Claim C2: notification-driven reconciliation. -/

theorem notify_one_control_fst (n i : Nat) (c : NCtl) (row : List Int) :
    (notify_one_control n i c row).1 = decide (n &&& c.notify_client ≠ 0) := by
  unfold notify_one_control
  by_cases h : n &&& c.notify_client = 0
  · simp [h]
  · cases c.read_result <;> simp [h]

theorem dhn_go_invoked (n i : Nat) (cs : List NCtl) (rows : List (List Int)) :
    (device_handle_notification_go n i cs rows).1 = notified_controls n i cs := by
  induction cs generalizing i rows with
  | nil => rfl
  | cons c cs ih =>
    show (if (notify_one_control n i c (rows.headD [])).1 then [i] else []) ++ _ = _
    rw [notify_one_control_fst]
    unfold notified_controls
    by_cases h : n &&& c.notify_client = 0
    · simp [h, ih]
    · simp [h, ih]

theorem notify_one_control_writes (n i : Nat) (c : NCtl) (row : List Int) :
    ∀ w ∈ (notify_one_control n i c row).2.1,
      w.ctl = i ∧
      ∃ vals, c.read_result = some vals ∧ n &&& c.notify_client ≠ 0 ∧
        w.val = vals.getD w.idx 0 ∧ w.val ≠ row.getD w.idx 0 := by
  intro w hw
  unfold notify_one_control at hw
  by_cases h : n &&& c.notify_client = 0
  · simp [h] at hw
  · rw [if_neg h] at hw
    cases hr : c.read_result with
    | none => rw [hr] at hw; simp at hw
    | some vals =>
      rw [hr] at hw
      simp only [List.mem_filterMap] at hw
      obtain ⟨j, _, hj⟩ := hw
      by_cases hne : vals.getD j 0 ≠ row.getD j 0
      · rw [if_pos hne] at hj
        cases hj
        exact ⟨rfl, vals, rfl, h, rfl, hne⟩
      · rw [if_neg hne] at hj
        cases hj

theorem dhn_go_writes (n i : Nat) (cs : List NCtl) (rows : List (List Int)) :
    ∀ w ∈ (device_handle_notification_go n i cs rows).2.1,
      i ≤ w.ctl ∧
      ∃ vals, (cs.getD (w.ctl - i) ⟨0, 0, none⟩).read_result = some vals ∧
        n &&& (cs.getD (w.ctl - i) ⟨0, 0, none⟩).notify_client ≠ 0 ∧
        w.val = vals.getD w.idx 0 ∧
        w.val ≠ (rows.getD (w.ctl - i) []).getD w.idx 0 := by
  induction cs generalizing i rows with
  | nil => intro w hw; simp [device_handle_notification_go] at hw
  | cons c cs ih =>
    intro w hw
    have hw1 : w ∈ (notify_one_control n i c (rows.headD [])).2.1 ∨
        w ∈ (device_handle_notification_go n (i + 1) cs rows.tail).2.1 := by
      simpa [device_handle_notification_go] using List.mem_append.mp hw
    rcases hw1 with hw1 | hw1
    · obtain ⟨hctl, vals, hr, hm, hv, hne⟩ := notify_one_control_writes n i c _ w hw1
      refine ⟨le_of_eq hctl.symm, vals, ?_, ?_, hv, ?_⟩
      · simpa [hctl] using hr
      · simpa [hctl] using hm
      · have : rows.getD (w.ctl - i) [] = rows.headD [] := by
          rw [hctl, Nat.sub_self]
          cases rows <;> rfl
        rw [this]; exact hne
    · obtain ⟨hle, vals, hr, hm, hv, hne⟩ := ih (i + 1) rows.tail w hw1
      have hsub : w.ctl - i = (w.ctl - (i + 1)) + 1 := by omega
      refine ⟨by omega, vals, ?_, ?_, hv, ?_⟩
      · rw [hsub]; simpa using hr
      · rw [hsub]; simpa using hm
      · rw [hsub, ← getD_tail]; exact hne

/-- Claim C2: on a device notification word N, the set of controls whose
read function is invoked is exactly the set of controls whose
`notify_client` mask intersects N, and the surface is written back only at
indices where the re-read value differs from the surface's current value
(the value written being the re-read one). -/
theorem device_handle_notification_reconcile (ctls : List NCtl)
    (surface : List (List Int)) (n : Nat) :
    (device_handle_notification ctls surface n).1 = notified_controls n 0 ctls ∧
    ∀ w ∈ (device_handle_notification ctls surface n).2.1,
      ∃ vals, (ctls.getD w.ctl ⟨0, 0, none⟩).read_result = some vals ∧
        n &&& (ctls.getD w.ctl ⟨0, 0, none⟩).notify_client ≠ 0 ∧
        w.val = vals.getD w.idx 0 ∧
        w.val ≠ (surface.getD w.ctl []).getD w.idx 0 := by
  constructor
  · exact dhn_go_invoked n 0 ctls surface
  · intro w hw
    obtain ⟨_, vals, hr, hm, hv, hne⟩ := dhn_go_writes n 0 ctls surface w hw
    exact ⟨vals, by simpa using hr, by simpa using hm, hv, by simpa using hne⟩

/-- Witness for C2 at a concrete pair of controls: notification 1 matches
only the first control (mask 1), whose re-read value 5 differs from the
surface's 3 at index 0. -/
theorem device_handle_notification_reconcile_witness :
    (device_handle_notification [⟨1, 0, some [5]⟩, ⟨2, 0, some [5]⟩] [[3], [5]] 1).1 =
      notified_controls 1 0 [⟨1, 0, some [5]⟩, ⟨2, 0, some [5]⟩] ∧
    (∃ vals,
      (([⟨1, 0, some [5]⟩, ⟨2, 0, some [5]⟩] : List NCtl).getD 0 ⟨0, 0, none⟩).read_result
        = some vals ∧
      1 &&& (([⟨1, 0, some [5]⟩, ⟨2, 0, some [5]⟩] : List NCtl).getD 0
        ⟨0, 0, none⟩).notify_client ≠ 0 ∧
      (5 : Int) = vals.getD 0 0 ∧
      (5 : Int) ≠ (([[3], [5]] : List (List Int)).getD 0 []).getD 0 0) :=
  ⟨(device_handle_notification_reconcile [⟨1, 0, some [5]⟩, ⟨2, 0, some [5]⟩]
      [[3], [5]] 1).1,
   (device_handle_notification_reconcile [⟨1, 0, some [5]⟩, ⟨2, 0, some [5]⟩]
      [[3], [5]] 1).2 ⟨0, 0, 5⟩ (by decide)⟩

/-! Claims C6 and C10: surface-side write handling. -/

/-- Claim C6: for a writable control, two successive surface writes of the
same (changed) value trigger the device write function exactly once, on
the first write (plus the optional notify of the same transaction); the
second write is detected as unchanged against the cached value and
performs no device operation. -/
theorem device_handle_control_change_idempotent (c : CCtl) (new_val : Int)
    (write_ret notify_ret w2 n2 : Int)
    (hro : c.read_only = false) (hwf : c.has_write_func = true)
    (hne : new_val ≠ c.value) (hw : 0 ≤ write_ret) (hn : 0 ≤ notify_ret) :
    (device_handle_control_change c new_val write_ret notify_ret).2.1 =
      CtlDevOp.write new_val ::
        (if c.notify_device ≠ 0 then [CtlDevOp.notify c.notify_device] else []) ∧
    (device_handle_control_change c new_val write_ret notify_ret).2.2 = 0 ∧
    (device_handle_control_change c new_val write_ret notify_ret).1.value = new_val ∧
    device_handle_control_change
        (device_handle_control_change c new_val write_ret notify_ret).1 new_val w2 n2 =
      ((device_handle_control_change c new_val write_ret notify_ret).1, [], 0) := by
  have hw1 : ¬write_ret < 0 := by omega
  have hn1 : ¬notify_ret < 0 := by omega
  unfold device_handle_control_change
  by_cases hnd : c.notify_device = 0 <;>
    simp [hne, hro, hwf, hw1, hn1, hnd]

/-- Witness for C6 at a concrete control. -/
theorem device_handle_control_change_idempotent_witness :
    (device_handle_control_change ⟨0, false, true, 3⟩ 5 0 0).2.1 =
      CtlDevOp.write 5 ::
        (if (3 : Nat) ≠ 0 then [CtlDevOp.notify 3] else []) ∧
    (device_handle_control_change ⟨0, false, true, 3⟩ 5 0 0).2.2 = 0 ∧
    (device_handle_control_change ⟨0, false, true, 3⟩ 5 0 0).1.value = 5 ∧
    device_handle_control_change
        (device_handle_control_change ⟨0, false, true, 3⟩ 5 0 0).1 5 0 0 =
      ((device_handle_control_change ⟨0, false, true, 3⟩ 5 0 0).1, [], 0) :=
  device_handle_control_change_idempotent ⟨0, false, true, 3⟩ 5 0 0 0 0
    rfl rfl (by decide) (by decide) (by decide)

/-- Claim C10: the cached value is assigned before the device write and is
not rolled back when the device write fails — or when the write succeeds
and the subsequent device notify fails — so the failed call leaves the
cache holding the requested value (and returns the failure), and a
repeated surface write of the same value performs no device operation and
succeeds trivially. -/
theorem device_handle_control_change_failed_write (c : CCtl) (new_val : Int)
    (write_ret notify_ret w2 n2 : Int)
    (hro : c.read_only = false) (hwf : c.has_write_func = true)
    (hne : new_val ≠ c.value)
    (hfail : write_ret < 0 ∨ (c.notify_device ≠ 0 ∧ notify_ret < 0)) :
    (device_handle_control_change c new_val write_ret notify_ret).1 =
      { c with value := new_val } ∧
    (device_handle_control_change c new_val write_ret notify_ret).2.2 < 0 ∧
    device_handle_control_change { c with value := new_val } new_val w2 n2 =
      ({ c with value := new_val }, [], 0) := by
  unfold device_handle_control_change
  rcases hfail with hw | ⟨hnd, hn⟩
  · simp [hne, hro, hwf, hw]
  · by_cases hwneg : write_ret < 0
    · simp [hne, hro, hwf, hwneg, hnd, hn]
    · simp [hne, hro, hwf, hwneg, hnd, hn]

/-- Witness for C10 at a concrete control, exercising both failure modes:
a failed device write (return -5) and a successful write followed by a
failed device notify (return -2). -/
theorem device_handle_control_change_failed_write_witness :
    ((device_handle_control_change ⟨0, false, true, 3⟩ 5 (-5) 0).1 =
        { value := 5, read_only := false, has_write_func := true,
          notify_device := 3 : CCtl } ∧
      (device_handle_control_change ⟨0, false, true, 3⟩ 5 (-5) 0).2.2 < 0 ∧
      device_handle_control_change
          { value := 5, read_only := false, has_write_func := true,
            notify_device := 3 : CCtl } 5 7 7 =
        ({ value := 5, read_only := false, has_write_func := true,
           notify_device := 3 : CCtl }, [], 0)) ∧
    ((device_handle_control_change ⟨0, false, true, 3⟩ 5 0 (-2)).1 =
        { value := 5, read_only := false, has_write_func := true,
          notify_device := 3 : CCtl } ∧
      (device_handle_control_change ⟨0, false, true, 3⟩ 5 0 (-2)).2.2 < 0 ∧
      device_handle_control_change
          { value := 5, read_only := false, has_write_func := true,
            notify_device := 3 : CCtl } 5 7 7 =
        ({ value := 5, read_only := false, has_write_func := true,
           notify_device := 3 : CCtl }, [], 0)) :=
  ⟨device_handle_control_change_failed_write ⟨0, false, true, 3⟩ 5 (-5) 0 7 7
      rfl rfl (by decide) (Or.inl (by decide)),
   device_handle_control_change_failed_write ⟨0, false, true, 3⟩ 5 0 (-2) 7 7
      rfl rfl (by decide) (Or.inr ⟨by decide, by decide⟩)⟩

/-! Claim C1: router write with a slot index of -1 at a higher rate. -/

/-- Claim C1 (code bug): the spec's router example — destination at slot 7
of rate 0, slot 5 of rate 1, absent (-1) at rate 2; input "Analog 3"
(pin 0x203) selected.  The claim says rate 2 is left untouched with no
MUX/write, but the rate loop of `write_mux_control` does not skip the
missing slot: it reaches the table access `values[-1]`, an out-of-bounds
(undefined-behaviour) store, before issuing a third `fcp_mux_write`. -/
theorem write_mux_control_rate2_oob :
    write_mux_control
      { cache :=
          { mux_size := [8, 6, 4]
            values := [[0, 0, 0, 0, 0, 0, 0, 16], [0, 0, 0, 0, 0, 16], [0, 0, 0, 0]]
            input_router_pin := [0, 515]
            output_router_slots := [7, 5, -1]
            output_fixed_input := [-1]
            dirty := false }
        dev := [[0, 0, 0, 0, 0, 0, 0, 16], [0, 0, 0, 0, 0, 16], [0, 0, 0, 0]] }
      0 1 = .error .oob := by
  rfl

/-! Claim C3: flash segment discovery with a segment missing. -/

/-- Claim C3 (code bug): a device segment list without any `App_Env` entry.
The claim (and the spec) say discovery must fail, but the -1 sentinel of
the missing segment passes the `== 0` validation of `get_segment_nums`,
so discovery succeeds and is cached with the env segment still -1. -/
theorem get_segment_nums_missing_env_ok :
    get_segment_nums SegState.initial
      [("Bootloader", 16384), ("App_Upgrade", 65536), ("App_Settings", 16384),
       ("App_Disk", 16384)] =
    .ok ⟨true, 1, 65536, 2, 16384, 3, 16384, -1, -1⟩ := by
  rfl

/-! Claim C4: one terminating frame per request. -/

/-- Claim C4 (code bug): an APP_FIRMWARE_UPDATE request whose payload is
smaller than 64 KiB.  `handle_app_firmware_update` itself sends an ERROR
frame and also returns the same nonzero code, so `handle_client_command`
sends a second ERROR frame: the response stream holds two terminating
ERROR frames, not one. -/
theorem app_update_double_error :
    (handle_client_command (fun _ => [])
        { dev_vid := 0x1235, dev_pid := 0x821D, seg := SegState.initial,
          segments := [("Bootloader", 16384), ("App_Upgrade", 65536),
            ("App_Settings", 16384), ("App_Disk", 16384), ("App_Env", 16384)],
          erase_last_progress := -1 }
        (Request.app_firmware_update (fun _ => true)
          ⟨100, 0x1235, 0x821D, [], [], []⟩)).map Prod.fst =
      some [Frame.error (.table .invalid_length), Frame.error (.table .invalid_length)] := by
  rfl

/-! Claim C8: erase progress frames per request. -/

/-- Claim C8 (code bug): two successive CONFIG_ERASE requests.  The first
request's polls are block count 4 of 4 (percent 100) then the sentinel,
so it emits PROGRESS 100 and leaves the function's static `last_progress`
at 100.  The second request's poll is the sentinel immediately; because
`last_progress` persisted across requests, it emits no PROGRESS frame at
all — the claim requires its final PROGRESS frame to be 100. -/
theorem erase_progress_static_leak :
    ((handle_client_command (fun _ => [])
        { dev_vid := 0x1235, dev_pid := 0x821D, seg := SegState.initial,
          segments := [("Bootloader", 16384), ("App_Upgrade", 65536),
            ("App_Settings", 16384), ("App_Disk", 16384), ("App_Env", 16384)],
          erase_last_progress := -1 }
        (Request.config_erase true [4, 255])).map Prod.fst =
      some [Frame.progress 100, Frame.success]) ∧
    ((handle_client_command (fun _ => [])
        { dev_vid := 0x1235, dev_pid := 0x821D, seg := SegState.initial,
          segments := [("Bootloader", 16384), ("App_Upgrade", 65536),
            ("App_Settings", 16384), ("App_Disk", 16384), ("App_Env", 16384)],
          erase_last_progress := -1 }
        (Request.config_erase true [4, 255])).bind
      (fun r => (handle_client_command (fun _ => []) r.2
        (Request.config_erase true [255])).map Prod.fst) =
      some [Frame.success]) :=
  ⟨rfl, rfl⟩

/-! Claim C9: reader error path on a truncated section header. -/

/-- Claim C9 (code bug): a firmware file whose section header is truncated
(3 bytes after the SCARLET4 magic).  `read_header` fails, and the error
path of `read_header_and_data` then executes
`free(firmware->firmware_data)` with `firmware == NULL` — a null
dereference, contrary to the claim that error paths free exactly what was
allocated without touching a null structure. -/
theorem read_firmware_file_short_header_ub :
    read_firmware_file (fun _ => List.replicate 32 0) (fun _ => List.replicate 16 0)
      (magicSCARLET4 ++ [0, 0, 0]) = .ub := by
  rfl

/-! Claim C7: digests of every accepted firmware file. -/

theorem read_header_ok_type (type : FirmwareType) (s : List Nat) (fw : Firmware)
    (s1 : List Nat) (h : read_header type s = .ok (fw, s1)) : fw.type = type := by
  unfold read_header at h
  split at h
  · cases h
  · cases h
    rfl

theorem read_header_and_data_ok (sha md5f : List Nat → List Nat)
    (type : FirmwareType) (s : List Nat) (fw : Firmware) (s2 : List Nat)
    (h : read_header_and_data sha md5f type s = .ok (fw, s2)) :
    section_digest_ok sha md5f fw := by
  unfold read_header_and_data at h
  cases hr : read_header type s with
  | ub => rw [hr] at h; cases h
  | fail => rw [hr] at h; cases h
  | ok pr =>
    rw [hr] at h
    dsimp only at h
    have htype : pr.1.type = type := read_header_ok_type type s pr.1 pr.2 (by rw [hr])
    split at h
    next => cases h
    next =>
      split at h
      next => cases h
      next hsha =>
        split at h
        next hesp =>
          cases h
          exact ⟨by simpa using not_not.mp hsha, by simp [section_digest_ok, htype, hesp]⟩
        next hesp =>
          cases h
          exact ⟨by simpa using not_not.mp hsha, by simp [section_digest_ok, htype, hesp]⟩

theorem read_magic_and_header_and_data_ok (sha md5f : List Nat → List Nat)
    (s : List Nat) (fw : Firmware) (s2 : List Nat)
    (h : read_magic_and_header_and_data sha md5f s = .ok (fw, s2)) :
    section_digest_ok sha md5f fw := by
  unfold read_magic_and_header_and_data at h
  dsimp only at h
  cases hm : (read_magic s).1 with
  | none => rw [hm] at h; cases h
  | some ty =>
    rw [hm] at h
    cases ty with
    | container => cases h
    | app => exact read_header_and_data_ok sha md5f _ _ fw s2 h
    | esp => exact read_header_and_data_ok sha md5f _ _ fw s2 h
    | leapfrog => exact read_header_and_data_ok sha md5f _ _ fw s2 h

theorem read_sections_ok (sha md5f : List Nat → List Nat) (n : Nat) (s : List Nat)
    (fws : List Firmware) (s2 : List Nat)
    (h : read_sections sha md5f n s = .ok (fws, s2)) :
    ∀ fw ∈ fws, section_digest_ok sha md5f fw := by
  induction n generalizing s fws s2 with
  | zero =>
    unfold read_sections at h
    cases h
    intro fw hfw
    cases hfw
  | succ m ih =>
    unfold read_sections at h
    cases h1 : read_magic_and_header_and_data sha md5f s with
    | ub => rw [h1] at h; cases h
    | fail => rw [h1] at h; cases h
    | ok pr =>
      rw [h1] at h
      dsimp only at h
      cases h2 : read_sections sha md5f m pr.2 with
      | ub => rw [h2] at h; cases h
      | fail => rw [h2] at h; cases h
      | ok qr =>
        rw [h2] at h
        dsimp only at h
        cases h
        intro fw hfw
        rcases List.mem_cons.mp hfw with hfw | hfw
        · subst hfw
          exact read_magic_and_header_and_data_ok sha md5f s pr.1 pr.2 (by rw [h1])
        · exact ih pr.2 qr.1 qr.2 (by rw [h2]) fw hfw

theorem read_firmware_container_ok (sha md5f : List Nat → List Nat) (s : List Nat)
    (c : FirmwareContainer) (h : read_firmware_container sha md5f s = .ok c) :
    ∀ fw ∈ c.sections, section_digest_ok sha md5f fw := by
  unfold read_firmware_container at h
  cases h1 : read_firmware_container_header s with
  | ub => rw [h1] at h; cases h
  | fail => rw [h1] at h; cases h
  | ok pr =>
    rw [h1] at h
    dsimp only at h
    split at h
    next => cases h
    next =>
      cases h2 : read_sections sha md5f pr.1.num_sections pr.2 with
      | ub => rw [h2] at h; cases h
      | fail => rw [h2] at h; cases h
      | ok qr =>
        rw [h2] at h
        dsimp only at h
        cases h
        intro fw hfw
        exact read_sections_ok sha md5f pr.1.num_sections pr.2 qr.1 qr.2 (by rw [h2]) fw hfw

/-- Claim C7: every section of a firmware file accepted by the reader has a
payload whose SHA-256 digest (computed with the supplied primitive)
equals the digest in its header, and the MD5 digest is computed and
stored exactly for the auxiliary-MCU (SCARLESP) sections. -/
theorem read_firmware_file_digests (sha md5f : List Nat → List Nat) (s : List Nat)
    (c : FirmwareContainer) (h : read_firmware_file sha md5f s = .ok c) :
    ∀ fw ∈ c.sections, section_digest_ok sha md5f fw := by
  unfold read_firmware_file at h
  dsimp only at h
  cases hm : (read_magic s).1 with
  | none => rw [hm] at h; cases h
  | some ty =>
    rw [hm] at h
    cases ty with
    | container => exact read_firmware_container_ok sha md5f _ c h
    | app =>
      dsimp only at h
      cases h1 : read_header_and_data sha md5f FirmwareType.app (read_magic s).2 with
      | ub => rw [h1] at h; cases h
      | fail => rw [h1] at h; cases h
      | ok pr =>
        rw [h1] at h
        dsimp only at h
        cases h
        intro fw hfw
        rcases List.mem_singleton.mp hfw with rfl
        exact read_header_and_data_ok sha md5f _ _ pr.1 pr.2 (by rw [h1])
    | esp =>
      dsimp only at h
      cases h1 : read_header_and_data sha md5f FirmwareType.esp (read_magic s).2 with
      | ub => rw [h1] at h; cases h
      | fail => rw [h1] at h; cases h
      | ok pr =>
        rw [h1] at h
        dsimp only at h
        cases h
        intro fw hfw
        rcases List.mem_singleton.mp hfw with rfl
        exact read_header_and_data_ok sha md5f _ _ pr.1 pr.2 (by rw [h1])
    | leapfrog =>
      dsimp only at h
      cases h1 : read_header_and_data sha md5f FirmwareType.leapfrog (read_magic s).2 with
      | ub => rw [h1] at h; cases h
      | fail => rw [h1] at h; cases h
      | ok pr =>
        rw [h1] at h
        dsimp only at h
        cases h
        intro fw hfw
        rcases List.mem_singleton.mp hfw with rfl
        exact read_header_and_data_ok sha md5f _ _ pr.1 pr.2 (by rw [h1])

/-- Witness for C7: a concrete one-section legacy file (SCARLET4 magic, a
1-byte payload, a constant digest function) is accepted and satisfies the
digest property. -/
theorem read_firmware_file_digests_witness :
    read_firmware_file (fun _ => List.replicate 32 0) (fun _ => List.replicate 16 0)
        (magicSCARLET4 ++ (List.replicate 20 0 ++ [0, 0, 0, 1] ++ List.replicate 32 0)
          ++ [7]) =
      .ok ⟨0, 0, [0, 0, 0, 0], 1,
        [⟨FirmwareType.app, 0, 0, [0, 0, 0, 0], 1, List.replicate 32 0, none, [7]⟩]⟩ ∧
    ∀ fw ∈ (⟨0, 0, [0, 0, 0, 0], 1,
        [⟨FirmwareType.app, 0, 0, [0, 0, 0, 0], 1, List.replicate 32 0, none, [7]⟩]⟩ :
          FirmwareContainer).sections,
      section_digest_ok (fun _ => List.replicate 32 0) (fun _ => List.replicate 16 0) fw :=
  ⟨by rfl,
   read_firmware_file_digests (fun _ => List.replicate 32 0)
     (fun _ => List.replicate 16 0)
     (magicSCARLET4 ++ (List.replicate 20 0 ++ [0, 0, 0, 1] ++ List.replicate 32 0)
       ++ [7]) _ (by rfl)⟩

/-! Claim C5: helper lemmas about slot encoding, bounded access, the
router-pin search, and the two caches. -/

theorem shiftRight_lor_distrib (a b n : Nat) :
    (a ||| b) >>> n = (a >>> n) ||| (b >>> n) := by
  apply Nat.eq_of_testBit_eq
  intro i
  simp [Nat.testBit_shiftRight, Nat.testBit_or]

theorem slot_pin_extract (a pin : Nat) :
    ((a &&& 0xFFF) ||| (pin <<< 12)) >>> 12 = pin := by
  rw [shiftRight_lor_distrib]
  have h1 : (a &&& 0xFFF) >>> 12 = 0 := by
    have hle : a &&& 0xFFF ≤ 0xFFF := Nat.and_le_right
    rw [Nat.shiftRight_eq_div_pow]
    exact Nat.div_eq_of_lt (by omega)
  have h2 : (pin <<< 12) >>> 12 = pin := by
    rw [Nat.shiftLeft_eq, Nat.shiftRight_eq_div_pow]
    exact Nat.mul_div_left pin (by norm_num)
  rw [h1, h2]
  simp

theorem listGetI_eq (l : List Nat) (i : Int) (h0 : 0 ≤ i) (h1 : i.toNat < l.length) :
    listGetI l i = some (l.getD i.toNat 0) := by
  unfold listGetI
  rw [if_pos h0, List.getElem?_eq_getElem h1, List.getD_eq_getElem l 0 h1]

theorem listSetI_eq (l : List Nat) (i : Int) (v : Nat) (h0 : 0 ≤ i)
    (h1 : i.toNat < l.length) :
    listSetI l i v = some (l.set i.toNat v) := by
  unfold listSetI
  rw [if_pos ⟨h0, h1⟩]

theorem router_pin_to_input_go_spec (pin base : Nat) (pins : List Nat) (i : Nat)
    (hi : i < pins.length) (hfound : pins.getD i 0 = pin)
    (hfirst : ∀ j, j < i → pins.getD j 0 ≠ pin) :
    router_pin_to_input_go pin base pins = base + i := by
  induction pins generalizing base i with
  | nil => simp at hi
  | cons p ps ih =>
    cases i with
    | zero =>
      unfold router_pin_to_input_go
      rw [if_pos (show p = pin from hfound)]
      omega
    | succ j =>
      unfold router_pin_to_input_go
      have hp : p ≠ pin := hfirst 0 (Nat.succ_pos j)
      rw [if_neg hp]
      have := ih (base + 1) j (by simpa using hi) hfound
        (fun k hk => hfirst (k + 1) (by omega))
      omega

theorem router_pin_to_input_first (pins : List Nat) (i : Nat) (hnd : pins.Nodup)
    (hi : i < pins.length) :
    router_pin_to_input pins (pins.getD i 0) = i := by
  unfold router_pin_to_input
  have hfirst : ∀ j, j < i → pins.getD j 0 ≠ pins.getD i 0 := by
    intro j hj heq
    have hj1 : j < pins.length := by omega
    rw [List.getD_eq_getElem pins 0 hj1, List.getD_eq_getElem pins 0 hi] at heq
    have : (⟨j, hj1⟩ : Fin pins.length) = ⟨i, hi⟩ := hnd.get_inj_iff.mp heq
    have hji : j = i := by simpa using this
    omega
  have := router_pin_to_input_go_spec (pins.getD i 0) 0 pins i hi rfl hfirst
  omega

theorem get_cached_mix_values_clean (st : MixState) (o : Nat)
    (h1 : o < st.cache.length) (h2 : st.dirty.getD o true = false) :
    get_cached_mix_values st o = .ok (st, [], st.cache.getD o []) := by
  unfold get_cached_mix_values
  rw [if_neg (by omega), h2]
  rfl

theorem get_cached_mix_values_dirty (st : MixState) (o : Nat)
    (h1 : o < st.cache.length) (h2 : st.dirty.getD o true = true) :
    get_cached_mix_values st o =
      .ok ({ st with cache := st.cache.set o (st.dev.getD o []),
                     dirty := st.dirty.set o false },
           [DevOp.mixRead o], st.dev.getD o []) := by
  unfold get_cached_mix_values
  rw [if_neg (by omega), h2]
  rfl

theorem get_cached_mux_values_clean (st : MuxState) (k : Nat)
    (hd : st.cache.dirty = false) :
    get_cached_mux_values st k = (st, [], st.cache.values.getD k []) := by
  unfold get_cached_mux_values
  rw [hd]
  rfl

theorem write_mux_rate_ok (st : MuxState) (offset rate : Nat) (pin : Nat)
    (slot : Int) (table newTable : List Nat)
    (hslot : st.cache.output_router_slots.getD (offset * 3 + rate) (-1) = slot)
    (htab : st.cache.values.getD rate [] = table)
    (hnew : table.set slot.toNat
      ((table.getD slot.toNat 0 &&& 0xFFF) ||| (pin <<< 12)) = newTable)
    (hf : st.cache.output_fixed_input.getD offset (-1) < 0)
    (hs : 0 ≤ slot) (hlen : slot.toNat < table.length) :
    write_mux_rate offset pin st rate =
      .ok ({ cache := { st.cache with values := st.cache.values.set rate newTable },
             dev := st.dev.set rate newTable },
           [DevOp.muxWrite rate (st.cache.mux_size.getD rate 0) newTable]) := by
  unfold write_mux_rate
  rw [if_neg (not_le.mpr hf)]
  dsimp only
  rw [hslot, htab]
  rw [if_neg (fun hc => absurd hc.1 (not_lt.mpr hs))]
  rw [listGetI_eq table slot hs hlen]
  dsimp only
  rw [listSetI_eq table slot _ hs hlen]
  dsimp only
  rw [hnew]

theorem get_cached_mux_values_clean2 (c : MuxCache) (d : List (List Nat)) (k : Nat)
    (hd : c.dirty = false) :
    get_cached_mux_values ⟨c, d⟩ k = (⟨c, d⟩, [], c.values.getD k []) := by
  unfold get_cached_mux_values
  dsimp only
  rw [hd]
  rfl

theorem read_mix_written (ic : Nat) (C : List (List Int)) (dr : List Bool)
    (D : List (List Int)) (offset : Nat) (row : List Int)
    (h1 : offset / ic < C.length)
    (h2 : dr.getD (offset / ic) true = false)
    (h3 : C.getD (offset / ic) [] = row) :
    read_mix_control ⟨ic, C, dr, D⟩ offset =
      .ok (⟨ic, C, dr, D⟩, [], row.getD (offset % ic) 0) := by
  unfold read_mix_control
  dsimp only
  rw [get_cached_mix_values_clean ⟨ic, C, dr, D⟩ _ h1 h2]
  dsimp only
  rw [h3]

theorem write_mux_control_ok (st : MuxState) (offset value pin : Nat)
    (s0 s1 s2 : Int) (T0 T1 T2 n0 n1 n2 : List Nat)
    (hpin : st.cache.input_router_pin.getD value 0 = pin)
    (hsl0 : st.cache.output_router_slots.getD (offset * 3) (-1) = s0)
    (hsl1 : st.cache.output_router_slots.getD (offset * 3 + 1) (-1) = s1)
    (hsl2 : st.cache.output_router_slots.getD (offset * 3 + 2) (-1) = s2)
    (hT0 : st.cache.values.getD 0 [] = T0)
    (hT1 : st.cache.values.getD 1 [] = T1)
    (hT2 : st.cache.values.getD 2 [] = T2)
    (hn0 : T0.set s0.toNat ((T0.getD s0.toNat 0 &&& 0xFFF) ||| (pin <<< 12)) = n0)
    (hn1 : T1.set s1.toNat ((T1.getD s1.toNat 0 &&& 0xFFF) ||| (pin <<< 12)) = n1)
    (hn2 : T2.set s2.toNat ((T2.getD s2.toNat 0 &&& 0xFFF) ||| (pin <<< 12)) = n2)
    (hf : st.cache.output_fixed_input.getD offset (-1) < 0)
    (hb0 : 0 ≤ s0) (hbl0 : s0.toNat < T0.length)
    (hb1 : 0 ≤ s1) (hbl1 : s1.toNat < T1.length)
    (hb2 : 0 ≤ s2) (hbl2 : s2.toNat < T2.length) :
    write_mux_control st offset value =
      .ok (⟨{ st.cache with values := ((st.cache.values.set 0 n0).set 1 n1).set 2 n2 },
            ((st.dev.set 0 n0).set 1 n1).set 2 n2⟩,
           [DevOp.muxWrite 0 (st.cache.mux_size.getD 0 0) n0,
            DevOp.muxWrite 1 (st.cache.mux_size.getD 1 0) n1,
            DevOp.muxWrite 2 (st.cache.mux_size.getD 2 0) n2]) := by
  unfold write_mux_control
  dsimp only
  rw [hpin]
  rw [write_mux_rate_ok st offset 0 pin s0 T0 n0 hsl0 hT0 hn0 hf hb0 hbl0]
  dsimp only
  rw [write_mux_rate_ok
    ⟨{ st.cache with values := st.cache.values.set 0 n0 }, st.dev.set 0 n0⟩
    offset 1 pin s1 T1 n1 hsl1
    ((getD_set_of_ne st.cache.values 0 1 (by omega) n0 []).trans hT1)
    hn1 hf hb1 hbl1]
  dsimp only
  rw [write_mux_rate_ok
    ⟨{ st.cache with values := (st.cache.values.set 0 n0).set 1 n1 },
      (st.dev.set 0 n0).set 1 n1⟩
    offset 2 pin s2 T2 n2 hsl2
    ((getD_set_of_ne (st.cache.values.set 0 n0) 1 2 (by omega) n1 []).trans
      ((getD_set_of_ne st.cache.values 0 2 (by omega) n0 []).trans hT2))
    hn2 hf hb2 hbl2]
  rfl

theorem read_mux_control_after_write (c0 : MuxCache) (d0 : List (List Nat))
    (offset value : Nat) (n0 n1 n2 : List Nat)
    (hd : c0.dirty = false)
    (hf : c0.output_fixed_input.getD offset (-1) < 0)
    (hb0 : 0 ≤ c0.output_router_slots.getD (offset * 3) (-1))
    (hbl0 : (c0.output_router_slots.getD (offset * 3) (-1)).toNat < n0.length)
    (h0V : 0 < c0.values.length)
    (hval : n0.getD (c0.output_router_slots.getD (offset * 3) (-1)).toNat 0 >>> 12 =
      c0.input_router_pin.getD value 0)
    (hnd : c0.input_router_pin.Nodup)
    (hv : value < c0.input_router_pin.length) :
    read_mux_control
      ⟨{ c0 with values := ((c0.values.set 0 n0).set 1 n1).set 2 n2 }, d0⟩ offset =
      .ok (⟨{ c0 with values := ((c0.values.set 0 n0).set 1 n1).set 2 n2 }, d0⟩,
           [], value) := by
  unfold read_mux_control
  dsimp only
  rw [get_cached_mux_values_clean2
    { c0 with values := ((c0.values.set 0 n0).set 1 n1).set 2 n2 } d0 0 hd]
  dsimp only
  rw [if_neg (not_le.mpr hf)]
  rw [getD_set_of_ne ((c0.values.set 0 n0).set 1 n1) 2 0 (by omega) n2 [],
      getD_set_of_ne (c0.values.set 0 n0) 1 0 (by omega) n1 [],
      getD_set_self c0.values 0 n0 [] h0V]
  rw [listGetI_eq n0 _ hb0 hbl0]
  dsimp only
  rw [hval, router_pin_to_input_first c0.input_router_pin value hnd hv]

/-- Claim C5: after a successful mixer-coefficient write or router
(destination) write, a read of the same control with no intervening
invalidation returns the written value and issues no device transport
call — it is served from the in-memory row / tables, whose dirty flags
are clear.  The mixer part assumes a well-formed cache (valid row index,
rows of `input_count` coefficients); the router part assumes a clean
cache, a non-fixed output present at all three rates, and distinct input
router pins. -/
theorem read_after_write_serves_cache :
    (∀ (st : MixState) (offset : Nat) (v : Int) (st1 : MixState) (tr : List DevOp),
      st.input_count ≠ 0 →
      offset / st.input_count < st.cache.length →
      offset / st.input_count < st.dirty.length →
      (st.cache.getD (offset / st.input_count) []).length = st.input_count →
      (st.dev.getD (offset / st.input_count) []).length = st.input_count →
      write_mix_control st offset v = .ok (st1, tr) →
      read_mix_control st1 offset = .ok (st1, [], v)) ∧
    (∀ (st : MuxState) (offset value : Nat) (st2 : MuxState) (tr : List DevOp),
      st.cache.dirty = false →
      st.cache.input_router_pin.Nodup →
      value < st.cache.input_router_pin.length →
      st.cache.output_fixed_input.getD offset (-1) < 0 →
      0 ≤ st.cache.output_router_slots.getD (offset * 3) (-1) →
      (st.cache.output_router_slots.getD (offset * 3) (-1)).toNat <
        (st.cache.values.getD 0 []).length →
      0 ≤ st.cache.output_router_slots.getD (offset * 3 + 1) (-1) →
      (st.cache.output_router_slots.getD (offset * 3 + 1) (-1)).toNat <
        (st.cache.values.getD 1 []).length →
      0 ≤ st.cache.output_router_slots.getD (offset * 3 + 2) (-1) →
      (st.cache.output_router_slots.getD (offset * 3 + 2) (-1)).toNat <
        (st.cache.values.getD 2 []).length →
      write_mux_control st offset value = .ok (st2, tr) →
      read_mux_control st2 offset = .ok (st2, [], value)) := by
  constructor
  · intro st offset v st1 tr hic hlen hdlen hclen hvlen hw
    have hk : offset % st.input_count < st.input_count :=
      Nat.mod_lt offset (Nat.pos_of_ne_zero hic)
    unfold write_mix_control at hw
    cases hb : st.dirty.getD (offset / st.input_count) true with
    | false =>
      rw [get_cached_mix_values_clean st _ hlen hb] at hw
      dsimp only at hw
      cases hw
      refine (read_mix_written st.input_count _ st.dirty _ offset _
        (by simpa using hlen) hb (getD_set_self _ _ _ _ hlen)).trans ?_
      rw [getD_set_self _ _ _ _ (by rw [hclen]; exact hk)]
    | true =>
      rw [get_cached_mix_values_dirty st _ hlen hb] at hw
      dsimp only at hw
      cases hw
      refine (read_mix_written st.input_count _ (st.dirty.set (offset / st.input_count)
          false) _ offset _
        (by simpa using hlen) (getD_set_self _ _ _ _ hdlen)
        (getD_set_self _ _ _ _ (by simpa using hlen))).trans ?_
      rw [getD_set_self _ _ _ _ (by rw [hvlen]; exact hk)]
  · intro st offset value st2 tr hd hnd hv hf hs0 hl0 hs1 hl1 hs2 hl2 hw
    have h0V : 0 < st.cache.values.length := by
      by_contra hcon
      have hnil : st.cache.values = [] := List.length_eq_zero.mp (by omega)
      rw [hnil] at hl0
      simp [List.getD] at hl0
    rw [write_mux_control_ok st offset value _ _ _ _ _ _ _ _ _ _ rfl rfl rfl rfl
      rfl rfl rfl rfl rfl rfl hf hs0 hl0 hs1 hl1 hs2 hl2] at hw
    cases hw
    refine read_mux_control_after_write st.cache _ offset value _ _ _ hd hf hs0
      ?_ h0V ?_ hnd hv
    · simpa using hl0
    · rw [getD_set_self _ _ _ _ hl0]
      exact slot_pin_extract _ _

/-- Witness for C5 at a concrete one-row mixer and a concrete one-slot
router (input "pin 515" selected for the destination in slot 0 of each
rate table). -/
theorem read_after_write_serves_cache_witness :
    read_mix_control ⟨2, [[0, 7]], [false], [[0, 7]]⟩ 1 =
      .ok (⟨2, [[0, 7]], [false], [[0, 7]]⟩, [], 7) ∧
    read_mux_control
      ⟨⟨[1, 1, 1], [[2109456], [2109456], [2109456]], [0, 515], [0, 0, 0], [-1], false⟩,
        [[2109456], [2109456], [2109456]]⟩ 0 =
      .ok (⟨⟨[1, 1, 1], [[2109456], [2109456], [2109456]], [0, 515], [0, 0, 0], [-1],
          false⟩, [[2109456], [2109456], [2109456]]⟩, [], 1) :=
  ⟨read_after_write_serves_cache.1 ⟨2, [[0, 0]], [false], [[0, 0]]⟩ 1 7
      ⟨2, [[0, 7]], [false], [[0, 7]]⟩ [DevOp.mixWrite 0 [0, 7]]
      (by decide) (by decide) (by decide) (by decide) (by decide) (by rfl),
   read_after_write_serves_cache.2
      ⟨⟨[1, 1, 1], [[16], [16], [16]], [0, 515], [0, 0, 0], [-1], false⟩,
        [[16], [16], [16]]⟩ 0 1
      ⟨⟨[1, 1, 1], [[2109456], [2109456], [2109456]], [0, 515], [0, 0, 0], [-1], false⟩,
        [[2109456], [2109456], [2109456]]⟩
      [DevOp.muxWrite 0 1 [2109456], DevOp.muxWrite 1 1 [2109456],
        DevOp.muxWrite 2 1 [2109456]]
      (by rfl) (by decide) (by decide) (by decide) (by decide) (by decide) (by decide)
      (by decide) (by decide) (by decide) (by rfl)⟩

end Fcp
